import Mathlib

/-!
Verification of the creditbridge-demo leveraged-position risk and lifecycle
logic: a shallow embedding in Lean 4 of

* `calculateStats` and the `fetchData` / `handleClosePosition` state updates
  of the position dashboard component (`src/unnamed/part_000`),
* the pre-authorization hold amount computed by the borrow route
  (`src/app/api/borrow/route.ts`),
* the loan-creation handler of the loans route (`src/app/api/loans/route.ts`).

Numbers: the JavaScript code computes over IEEE doubles.  The embedding uses
exact rationals (`ℚ`), reading each numeric literal (`0.85`, `1.1`, `1e18`,
...) at its exact decimal value; raw on-chain fields, which the code obtains
via `parseFloat` of integer strings, are carried directly as their parsed
rational values.  JavaScript's division however does not raise on a zero
denominator: it produces `Infinity`, `-Infinity` or `NaN`.  Because the
guard structure around the divisions is exactly what several claims are
about, division is embedded faithfully through the extended type `JsNum`
below rather than through Lean's `x / 0 = 0` convention.
-/

namespace CreditBridge

/-- A JavaScript double as it can arise from the arithmetic in this code:
either a finite value (idealized as an exact rational) or one of the
non-finite values produced by dividing by zero. -/
inductive JsNum where
  | fin : ℚ → JsNum
  | posInf : JsNum
  | negInf : JsNum
  | nan : JsNum
deriving DecidableEq

/-- The JavaScript comparison `x < c` for a possibly non-finite `x` and a
finite literal `c`: `Infinity < c` and `NaN < c` are `false`,
`-Infinity < c` is `true`. -/
def JsNum.ltQ : JsNum → ℚ → Bool
  | JsNum.fin q, c => decide (q < c)
  | JsNum.posInf, _ => false
  | JsNum.negInf, _ => true
  | JsNum.nan, _ => false

/-- JavaScript division `a / b` (with `b` the `+0` that `parseFloat` of a
zero string yields): finite quotient when `b ≠ 0`, otherwise the IEEE
non-finite results. -/
def jsDiv (a b : ℚ) : JsNum :=
  if b ≠ 0 then JsNum.fin (a / b)
  else if 0 < a then JsNum.posInf
  else if a < 0 then JsNum.negInf
  else JsNum.nan

/-- JavaScript `Math.ceil`: ceiling on finite values, identity on the
non-finite ones. -/
def jsCeil : JsNum → JsNum
  | JsNum.fin q => JsNum.fin ((⌈q⌉ : ℤ) : ℚ)
  | x => x

/-- The `Position` record returned by the chain client, with each raw
integer-string field carried as its `parseFloat` value (the strings are
decimal integers, so the parse is exact). -/
structure Position where
  collateralLINK : ℚ
  suppliedLINK : ℚ
  borrowedUSDC : ℚ
  entryPrice : ℚ
  preAuthExpiryTime : ℤ
  isActive : Bool
deriving DecidableEq

/-- The `PositionStats` record produced by `calculateStats`.  `healthFactor`
is a `JsNum` because its division site is the one whose denominator the code
does not guard. -/
structure PositionStats where
  collateralUSD : ℚ
  currentCollateralUSD : ℚ
  totalExposureLINK : ℚ
  totalExposureUSD : ℚ
  unrealizedPnL : ℚ
  unrealizedPnLPercent : ℚ
  liquidationPrice : ℚ
  healthFactor : JsNum
  timeRemaining : ℤ
  currentLTV : ℚ
  isAtRisk : Bool
deriving DecidableEq

/-- The fixed 85% liquidation threshold (`const liquidationThreshold = 0.85`). -/
def liquidationThreshold : ℚ := 85 / 100

/-- The entry-price-valued total exposure `suppliedLINK * entryPrice`
computed on line 23 of the dashboard component (a local of
`calculateStats`, not a returned field). -/
def initialTotalExposureUSD (position : Position) : ℚ :=
  position.suppliedLINK / 10 ^ 18 * (position.entryPrice / 10 ^ 8)

/-- `calculateStats` from the dashboard component.  `now` stands for the
`Math.floor(Date.now() / 1000)` read inside the function.  The three
divisions whose guards test their own denominator (`unrealizedPnLPercent`,
`liquidationPrice`, `currentLTV`) stay rational — inside the guarded branch
the denominator is nonzero, where JavaScript and rational division agree.
`healthFactor` is guarded by `totalExposureUSD > 0` but divides by
`borrowedUSDC`, so its division is embedded through `jsDiv`. -/
def calculateStats (position : Position) (currentLinkPrice : ℚ) (now : ℤ) :
    PositionStats :=
  let collateralLINK := position.collateralLINK / 10 ^ 18
  let suppliedLINK := position.suppliedLINK / 10 ^ 18
  let borrowedUSDC := position.borrowedUSDC / 10 ^ 6
  let entryPrice := position.entryPrice / 10 ^ 8
  let initialCollateralUSD := collateralLINK * entryPrice
  let currentCollateralUSD := collateralLINK * currentLinkPrice
  let totalExposureUSD := suppliedLINK * currentLinkPrice
  let initialTotalExposureUSD := suppliedLINK * entryPrice
  let pnl := totalExposureUSD - initialTotalExposureUSD
  let healthFactor :=
    if totalExposureUSD > 0 then
      jsDiv (totalExposureUSD * liquidationThreshold) borrowedUSDC
    else JsNum.fin 0
  let liquidationPrice :=
    if suppliedLINK > 0 then borrowedUSDC / (suppliedLINK * liquidationThreshold)
    else 0
  let timeRemaining := position.preAuthExpiryTime - now
  let currentLTV :=
    if totalExposureUSD > 0 then borrowedUSDC / totalExposureUSD * 100 else 0
  { collateralUSD := currentCollateralUSD
    currentCollateralUSD := currentCollateralUSD
    totalExposureLINK := suppliedLINK
    totalExposureUSD := totalExposureUSD
    unrealizedPnL := pnl
    unrealizedPnLPercent :=
      if initialCollateralUSD > 0 then pnl / initialCollateralUSD * 100 else 0
    liquidationPrice := liquidationPrice
    healthFactor := healthFactor
    timeRemaining := timeRemaining
    currentLTV := currentLTV
    isAtRisk := JsNum.ltQ healthFactor (11 / 10) }

/-- The dashboard component's state hooks relevant to the claims:
`position`, `stats`, `linkPrice`, `loading`, `error`, `isClosing`,
`timeRemaining`. -/
structure MonitorState where
  position : Option Position
  stats : Option PositionStats
  linkPrice : ℚ
  loading : Bool
  error : Option String
  isClosing : Bool
  timeRemaining : ℤ
deriving DecidableEq

/-- Outcome of the `Promise.all([getPositionDetails, getLINKPrice])` call:
either both reads succeed (the fetched position, if any, and the raw price
string's value at 10^8 scale), or the combined promise rejects with an
error message. -/
inductive FetchOutcome where
  | ok : Option Position → ℚ → FetchOutcome
  | failed : String → FetchOutcome
deriving DecidableEq

/-- The state update performed by one run of `fetchData` (the component's
`useCallback`), given the outcome of the two external reads.  `now` is the
clock read used by `calculateStats`.  On success: price is decoded at 10^8,
and either the active position's stats are computed and stored, or (absent
or inactive position) position, stats and countdown are cleared; the error
is cleared.  On failure the code sets the error only when
`position === null || (position && position.isActive)` holds of the state
it captured; otherwise state is untouched.  `loading` ends `false` either
way (the `finally` block). -/
def fetchData (s : MonitorState) (now : ℤ) (outcome : FetchOutcome) :
    MonitorState :=
  match outcome with
  | FetchOutcome.ok pos priceString =>
    let price := priceString / 10 ^ 8
    match pos with
    | some p =>
      if p.isActive then
        let calculatedStats := calculateStats p price now
        { s with
          position := some p
          linkPrice := price
          stats := some calculatedStats
          timeRemaining := calculatedStats.timeRemaining
          error := none
          loading := false }
      else
        { s with
          position := none
          linkPrice := price
          stats := none
          timeRemaining := 0
          error := none
          loading := false }
    | none =>
      { s with
        position := none
        linkPrice := price
        stats := none
        timeRemaining := 0
        error := none
        loading := false }
  | FetchOutcome.failed msg =>
    match s.position with
    | none => { s with error := some msg, loading := false }
    | some p =>
      if p.isActive then { s with error := some msg, loading := false }
      else { s with loading := false }

/-- Outcome of the `closeLeveragePosition()` transaction call. -/
inductive CloseOutcome where
  | ok : CloseOutcome
  | failed : String → CloseOutcome
deriving DecidableEq

/-- The state update performed by `handleClosePosition`: the error is first
cleared, then on a successful close the position and stats are
optimistically cleared; on a failed close the caught message is stored as
the error and position/stats are untouched.  `isClosing` ends `false`
either way (the `finally` block). -/
def handleClosePosition (s : MonitorState) (outcome : CloseOutcome) :
    MonitorState :=
  match outcome with
  | CloseOutcome.ok =>
    { s with error := none, position := none, stats := none, isClosing := false }
  | CloseOutcome.failed msg =>
    { s with error := some msg, isClosing := false }

/-- The pre-authorization hold amount computed by the borrow route
(`const preAuthAmount = requiredPreAuth || Math.ceil(borrowAmountUSD /
(selectedLTV / 100))`).  `requiredPreAuth` is `none` when the caller sent
no override (JavaScript `undefined`/`null`); a supplied numeric override is
`some r`, and per `||` a zero (falsy) override falls through to the
computed value. -/
def preAuthAmount (requiredPreAuth : Option ℚ) (borrowAmountUSD : ℚ)
    (selectedLTV : ℚ) : JsNum :=
  let computed := jsCeil (jsDiv borrowAmountUSD (selectedLTV / 100))
  match requiredPreAuth with
  | some r => if r ≠ 0 then JsNum.fin r else computed
  | none => computed

/-- The request body of the loans route's POST handler, restricted to the
fields that handler reads or writes.  String fields hold the caller's
values (`""` standing for an absent/falsy field); `borrowAmount` is the
caller's number (`0` falsy). -/
structure LoanData where
  id : String
  preAuthId : String
  walletAddress : String
  borrowAmount : ℚ
  asset : String
  status : String
  createdAt : String
deriving DecidableEq

/-- JavaScript truthiness of a string field: nonempty. -/
def truthyStr (s : String) : Bool := s ≠ ""

namespace LoansApi

/-- The loans route's POST handler: validates the five required fields in
order (`id`, `preAuthId`, `walletAddress`, `borrowAmount`, `asset`),
returning a 400 error naming the first missing one; otherwise overwrites
`createdAt` with the server clock and `status` with `"active"` and stores
the record, returning it.  `now` is the server's `new Date().toISOString()`. -/
def POST (loanData : LoanData) (now : String) : Except String LoanData :=
  if truthyStr loanData.id = false then
    Except.error "Missing required field: id"
  else if truthyStr loanData.preAuthId = false then
    Except.error "Missing required field: preAuthId"
  else if truthyStr loanData.walletAddress = false then
    Except.error "Missing required field: walletAddress"
  else if loanData.borrowAmount = 0 then
    Except.error "Missing required field: borrowAmount"
  else if truthyStr loanData.asset = false then
    Except.error "Missing required field: asset"
  else
    Except.ok { loanData with createdAt := now, status := "active" }

end LoansApi

/-- The position of spec Scenarios A and B: supplied 100 LINK (raw 10^20 at
18 decimals), borrowed 800 USDC (raw 8·10^8 at 6 decimals), entry price
10.00 (raw 10^9 at 8 decimals); collateral raw 10^20 as a representative
value. -/
def scenarioPosition : Position :=
  { collateralLINK := 100 * 10 ^ 18
    suppliedLINK := 100 * 10 ^ 18
    borrowedUSDC := 800 * 10 ^ 6
    entryPrice := 10 * 10 ^ 8
    preAuthExpiryTime := 3600
    isActive := true }

/-- On a finite value, `JsNum.ltQ` is the rational comparison. -/
theorem JsNum.ltQ_fin (q c : ℚ) :
    JsNum.ltQ (JsNum.fin q) c = decide (q < c) := rfl

/-- The `healthFactor` field of `calculateStats`, written out: the guard is
`totalExposureUSD > 0` and the denominator is `borrowedUSDC`.  Holds by
unfolding the definition. -/
theorem calculateStats_healthFactor_def (p : Position) (price : ℚ) (now : ℤ) :
    (calculateStats p price now).healthFactor =
      (if p.suppliedLINK / 10 ^ 18 * price > 0 then
        jsDiv (p.suppliedLINK / 10 ^ 18 * price * liquidationThreshold)
          (p.borrowedUSDC / 10 ^ 6)
      else JsNum.fin 0) := rfl

/-- The `isAtRisk` field of `calculateStats` is the JavaScript comparison
`healthFactor < 1.1`.  Holds by unfolding the definition. -/
theorem calculateStats_isAtRisk_def (p : Position) (price : ℚ) (now : ℤ) :
    (calculateStats p price now).isAtRisk =
      JsNum.ltQ (calculateStats p price now).healthFactor (11 / 10) := rfl

/-- The `currentLTV` field of `calculateStats`, written out. -/
theorem calculateStats_currentLTV_def (p : Position) (price : ℚ) (now : ℤ) :
    (calculateStats p price now).currentLTV =
      (if p.suppliedLINK / 10 ^ 18 * price > 0 then
        p.borrowedUSDC / 10 ^ 6 / (p.suppliedLINK / 10 ^ 18 * price) * 100
      else 0) := rfl

/-- The `totalExposureUSD` field of `calculateStats`, written out. -/
theorem calculateStats_totalExposureUSD_def (p : Position) (price : ℚ) (now : ℤ) :
    (calculateStats p price now).totalExposureUSD =
      p.suppliedLINK / 10 ^ 18 * price := rfl

/-- The `unrealizedPnL` field of `calculateStats`, written out: exposure at
the current price minus exposure at the entry price. -/
theorem calculateStats_unrealizedPnL_def (p : Position) (price : ℚ) (now : ℤ) :
    (calculateStats p price now).unrealizedPnL =
      p.suppliedLINK / 10 ^ 18 * price -
        p.suppliedLINK / 10 ^ 18 * (p.entryPrice / 10 ^ 8) := rfl

/-- C1 (counterexample): the claim says `calculateStats` returns
`healthFactor = 0` when the borrowed amount is 0.  At the scenario position
with `borrowedUSDC = 0` and current price 10 (all quantities non-negative,
exposure 1000 > 0), the code takes the `totalExposureUSD > 0` branch and
divides by zero, producing `Infinity`, not 0. -/
theorem calculateStats_healthFactor_zeroBorrow_cex :
    ({ scenarioPosition with borrowedUSDC := 0 } : Position).borrowedUSDC = 0 ∧
    (calculateStats { scenarioPosition with borrowedUSDC := 0 } 10 0).healthFactor
      = JsNum.posInf ∧
    (calculateStats { scenarioPosition with borrowedUSDC := 0 } 10 0).healthFactor
      ≠ JsNum.fin 0 := by
  have h : (calculateStats { scenarioPosition with borrowedUSDC := 0 } 10
      0).healthFactor = JsNum.posInf := by
    norm_num [calculateStats_healthFactor_def, scenarioPosition, jsDiv,
      liquidationThreshold]
  exact ⟨rfl, h, h ▸ (by decide)⟩

/-- C1 (amended): `calculateStats` guards the health factor on
`totalExposureUSD > 0`, not on the borrowed amount.  With
`e = suppliedLINK/10^18 × price` and `b = borrowedUSDC/10^6`: if `e > 0` and
`b ≠ 0` the health factor is the finite value `(e × 0.85) / b`; if `e ≤ 0`
it is 0; if `e > 0` and `b = 0` the division by zero yields `+Infinity`
(JavaScript raises no exception; the computation is total). -/
theorem calculateStats_healthFactor_cases (p : Position) (price : ℚ) (now : ℤ) :
    (0 < p.suppliedLINK / 10 ^ 18 * price → p.borrowedUSDC / 10 ^ 6 ≠ 0 →
      (calculateStats p price now).healthFactor =
        JsNum.fin (p.suppliedLINK / 10 ^ 18 * price * liquidationThreshold /
          (p.borrowedUSDC / 10 ^ 6))) ∧
    (p.suppliedLINK / 10 ^ 18 * price ≤ 0 →
      (calculateStats p price now).healthFactor = JsNum.fin 0) ∧
    (0 < p.suppliedLINK / 10 ^ 18 * price → p.borrowedUSDC / 10 ^ 6 = 0 →
      (calculateStats p price now).healthFactor = JsNum.posInf) := by
  refine ⟨?_, ?_, ?_⟩
  · intro he hb
    rw [calculateStats_healthFactor_def, if_pos he]
    unfold jsDiv
    rw [if_pos hb]
  · intro he
    rw [calculateStats_healthFactor_def, if_neg (not_lt.mpr he)]
  · intro he hb
    rw [calculateStats_healthFactor_def, if_pos he]
    unfold jsDiv
    rw [if_neg (fun h => h hb),
      if_pos (mul_pos he (by norm_num [liquidationThreshold]))]

/-- C1 (witness): the three cases of
`calculateStats_healthFactor_cases` at concrete inputs: the scenario
position at price 12 (exposure 1200, borrowed 800), at price 0
(exposure 0), and with zero borrowed amount at price 12. -/
theorem calculateStats_healthFactor_cases_spot :
    (calculateStats scenarioPosition 12 0).healthFactor =
      JsNum.fin (scenarioPosition.suppliedLINK / 10 ^ 18 * 12 *
        liquidationThreshold / (scenarioPosition.borrowedUSDC / 10 ^ 6)) ∧
    (calculateStats scenarioPosition 0 0).healthFactor = JsNum.fin 0 ∧
    (calculateStats { scenarioPosition with borrowedUSDC := 0 } 12 0).healthFactor
      = JsNum.posInf := by
  refine ⟨(calculateStats_healthFactor_cases scenarioPosition 12 0).1
      (by norm_num [scenarioPosition]) (by norm_num [scenarioPosition]),
    (calculateStats_healthFactor_cases scenarioPosition 0 0).2.1
      (by norm_num [scenarioPosition]),
    (calculateStats_healthFactor_cases _ 12 0).2.2
      (by norm_num [scenarioPosition]) (by norm_num [scenarioPosition])⟩

/-- C2: Scenarios A and B of the spec, for the position with entry price
10.00, supplied 100, borrowed 800 (any collateral, expiry and clock).  At
current price 12.00: exposure at entry 1000, exposure now 1200, unrealized
PnL 200, health factor (1200 × 0.85)/800 = 1.275, not at risk.  At current
price 9.00: exposure now 900, health factor (900 × 0.85)/800 = 153/160
(= 0.95625, the spec's "0.956" to three decimals), at risk, and current
LTV = 800/900 × 100 = 800/9 (≈ 88.9%). -/
theorem calculateStats_scenarioAB (c : ℚ) (expiry now : ℤ) :
    initialTotalExposureUSD
      ⟨c, 100 * 10 ^ 18, 800 * 10 ^ 6, 10 * 10 ^ 8, expiry, true⟩ = 1000 ∧
    (calculateStats ⟨c, 100 * 10 ^ 18, 800 * 10 ^ 6, 10 * 10 ^ 8, expiry, true⟩
        12 now).totalExposureUSD = 1200 ∧
    (calculateStats ⟨c, 100 * 10 ^ 18, 800 * 10 ^ 6, 10 * 10 ^ 8, expiry, true⟩
        12 now).unrealizedPnL = 200 ∧
    (calculateStats ⟨c, 100 * 10 ^ 18, 800 * 10 ^ 6, 10 * 10 ^ 8, expiry, true⟩
        12 now).healthFactor = JsNum.fin (1200 * (85 / 100) / 800) ∧
    (calculateStats ⟨c, 100 * 10 ^ 18, 800 * 10 ^ 6, 10 * 10 ^ 8, expiry, true⟩
        12 now).healthFactor = JsNum.fin (51 / 40) ∧
    (calculateStats ⟨c, 100 * 10 ^ 18, 800 * 10 ^ 6, 10 * 10 ^ 8, expiry, true⟩
        12 now).isAtRisk = false ∧
    (calculateStats ⟨c, 100 * 10 ^ 18, 800 * 10 ^ 6, 10 * 10 ^ 8, expiry, true⟩
        9 now).totalExposureUSD = 900 ∧
    (calculateStats ⟨c, 100 * 10 ^ 18, 800 * 10 ^ 6, 10 * 10 ^ 8, expiry, true⟩
        9 now).healthFactor = JsNum.fin (900 * (85 / 100) / 800) ∧
    (calculateStats ⟨c, 100 * 10 ^ 18, 800 * 10 ^ 6, 10 * 10 ^ 8, expiry, true⟩
        9 now).healthFactor = JsNum.fin (153 / 160) ∧
    (calculateStats ⟨c, 100 * 10 ^ 18, 800 * 10 ^ 6, 10 * 10 ^ 8, expiry, true⟩
        9 now).isAtRisk = true ∧
    (calculateStats ⟨c, 100 * 10 ^ 18, 800 * 10 ^ 6, 10 * 10 ^ 8, expiry, true⟩
        9 now).currentLTV = 800 / 9 := by
  have hA : (calculateStats
      ⟨c, 100 * 10 ^ 18, 800 * 10 ^ 6, 10 * 10 ^ 8, expiry, true⟩
      12 now).healthFactor = JsNum.fin (51 / 40) := by
    rw [calculateStats_healthFactor_def]
    norm_num [jsDiv, liquidationThreshold]
  have hB : (calculateStats
      ⟨c, 100 * 10 ^ 18, 800 * 10 ^ 6, 10 * 10 ^ 8, expiry, true⟩
      9 now).healthFactor = JsNum.fin (153 / 160) := by
    rw [calculateStats_healthFactor_def]
    norm_num [jsDiv, liquidationThreshold]
  refine ⟨?_, ?_, ?_, ?_, hA, ?_, ?_, ?_, hB, ?_, ?_⟩
  · norm_num [initialTotalExposureUSD]
  · norm_num [calculateStats_totalExposureUSD_def]
  · norm_num [calculateStats_unrealizedPnL_def]
  · rw [hA]; norm_num
  · rw [calculateStats_isAtRisk_def, hA, JsNum.ltQ_fin]; norm_num
  · norm_num [calculateStats_totalExposureUSD_def]
  · rw [hB]; norm_num
  · rw [calculateStats_isAtRisk_def, hB, JsNum.ltQ_fin]; norm_num
  · rw [calculateStats_currentLTV_def]
    norm_num

/-- C3: for every snapshot produced by `calculateStats`, `isAtRisk` is true
iff the snapshot's health factor is below 1.10 under the JavaScript `<`
(on which `Infinity < 1.1` is false); in particular, whenever the health
factor is a finite value `q`, `isAtRisk = true ↔ q < 1.10`. -/
theorem calculateStats_isAtRisk_iff (p : Position) (price : ℚ) (now : ℤ) :
    ((calculateStats p price now).isAtRisk = true ↔
      JsNum.ltQ (calculateStats p price now).healthFactor (11 / 10) = true) ∧
    (∀ q : ℚ, (calculateStats p price now).healthFactor = JsNum.fin q →
      ((calculateStats p price now).isAtRisk = true ↔ q < 11 / 10)) := by
  refine ⟨Iff.rfl, ?_⟩
  intro q hq
  rw [calculateStats_isAtRisk_def, hq]
  simp [JsNum.ltQ]

/-- C3 (witness): for the scenario position at price 9 the health factor is
the finite value 153/160 and `isAtRisk = true ↔ 153/160 < 1.10`. -/
theorem calculateStats_isAtRisk_iff_spot :
    (calculateStats scenarioPosition 9 0).isAtRisk = true ↔
      (153 : ℚ) / 160 < 11 / 10 := by
  refine (calculateStats_isAtRisk_iff scenarioPosition 9 0).2 (153 / 160) ?_
  norm_num [calculateStats_healthFactor_def, scenarioPosition, jsDiv,
    liquidationThreshold]

/-- C4 (counterexample): the claim says that when the current price is ≤ 0
every exposure field of the snapshot is 0.  At the scenario position and
price −1 (which is ≤ 0), `isAtRisk` is indeed true but
`totalExposureUSD = 100 × (−1) = −100 ≠ 0`: the code has no price guard and
the exposure fields carry the negative product. -/
theorem calculateStats_nonpositive_price_cex :
    ((-1 : ℚ) ≤ 0) ∧
    (calculateStats scenarioPosition (-1) 0).isAtRisk = true ∧
    (calculateStats scenarioPosition (-1) 0).totalExposureUSD = -100 ∧
    (calculateStats scenarioPosition (-1) 0).totalExposureUSD ≠ 0 := by
  have he : (calculateStats scenarioPosition (-1) 0).totalExposureUSD = -100 := by
    norm_num [calculateStats_totalExposureUSD_def, scenarioPosition]
  have hf : (calculateStats scenarioPosition (-1) 0).healthFactor =
      JsNum.fin 0 := by
    rw [calculateStats_healthFactor_def]
    norm_num [scenarioPosition]
  refine ⟨by norm_num, ?_, he, by rw [he]; norm_num⟩
  rw [calculateStats_isAtRisk_def, hf, JsNum.ltQ_fin]
  norm_num

/-- C4 (amended): for a non-positive current price and non-negative supplied
amount, the snapshot has `healthFactor = 0`, `isAtRisk = true` and
`currentLTV = 0` (the `totalExposureUSD > 0` guards fail, so no division by
zero occurs), while `totalExposureUSD` equals `suppliedLINK/10^18 × price`,
which is ≤ 0 but not necessarily 0. -/
theorem calculateStats_nonpositive_price (p : Position) (price : ℚ) (now : ℤ)
    (hprice : price ≤ 0) (hsup : 0 ≤ p.suppliedLINK) :
    (calculateStats p price now).healthFactor = JsNum.fin 0 ∧
    (calculateStats p price now).isAtRisk = true ∧
    (calculateStats p price now).currentLTV = 0 ∧
    (calculateStats p price now).totalExposureUSD =
      p.suppliedLINK / 10 ^ 18 * price ∧
    (calculateStats p price now).totalExposureUSD ≤ 0 := by
  have he : p.suppliedLINK / 10 ^ 18 * price ≤ 0 :=
    mul_nonpos_iff.mpr (Or.inl ⟨by positivity, hprice⟩)
  have hf : (calculateStats p price now).healthFactor = JsNum.fin 0 := by
    rw [calculateStats_healthFactor_def, if_neg (not_lt.mpr he)]
  refine ⟨hf, ?_, ?_, calculateStats_totalExposureUSD_def p price now, ?_⟩
  · rw [calculateStats_isAtRisk_def, hf, JsNum.ltQ_fin]
    norm_num
  · rw [calculateStats_currentLTV_def, if_neg (not_lt.mpr he)]
  · rw [calculateStats_totalExposureUSD_def]
    exact he

/-- C5: whenever one run of `fetchData` succeeds and the fetched position
is absent or has `isActive = false`, the resulting state has no position,
no stats snapshot, and a countdown of 0 — the snapshot is cleared together
with the position. -/
theorem fetchData_inactive_clears (s : MonitorState) (now : ℤ)
    (pos : Option Position) (priceString : ℚ)
    (h : ∀ p, pos = some p → p.isActive = false) :
    (fetchData s now (FetchOutcome.ok pos priceString)).position = none ∧
    (fetchData s now (FetchOutcome.ok pos priceString)).stats = none ∧
    (fetchData s now (FetchOutcome.ok pos priceString)).timeRemaining = 0 := by
  cases pos with
  | none => exact ⟨rfl, rfl, rfl⟩
  | some p =>
    have hp := h p rfl
    simp [fetchData, hp]

/-- C5 (witness): `fetchData_inactive_clears` for a fetch returning no
position, and again for a fetch returning the scenario position marked
inactive, starting from a state that held an active position with a live
snapshot and countdown. -/
theorem fetchData_inactive_clears_spot :
    ((fetchData
        ⟨some scenarioPosition, some (calculateStats scenarioPosition 12 0), 12,
          false, none, false, 3600⟩
        0 (FetchOutcome.ok none (12 * 10 ^ 8))).position = none ∧
      (fetchData
        ⟨some scenarioPosition, some (calculateStats scenarioPosition 12 0), 12,
          false, none, false, 3600⟩
        0 (FetchOutcome.ok none (12 * 10 ^ 8))).stats = none ∧
      (fetchData
        ⟨some scenarioPosition, some (calculateStats scenarioPosition 12 0), 12,
          false, none, false, 3600⟩
        0 (FetchOutcome.ok none (12 * 10 ^ 8))).timeRemaining = 0) ∧
    ((fetchData
        ⟨some scenarioPosition, some (calculateStats scenarioPosition 12 0), 12,
          false, none, false, 3600⟩
        0 (FetchOutcome.ok (some { scenarioPosition with isActive := false })
          (12 * 10 ^ 8))).position = none ∧
      (fetchData
        ⟨some scenarioPosition, some (calculateStats scenarioPosition 12 0), 12,
          false, none, false, 3600⟩
        0 (FetchOutcome.ok (some { scenarioPosition with isActive := false })
          (12 * 10 ^ 8))).stats = none ∧
      (fetchData
        ⟨some scenarioPosition, some (calculateStats scenarioPosition 12 0), 12,
          false, none, false, 3600⟩
        0 (FetchOutcome.ok (some { scenarioPosition with isActive := false })
          (12 * 10 ^ 8))).timeRemaining = 0) := by
  constructor
  · exact fetchData_inactive_clears _ 0 none (12 * 10 ^ 8)
      (fun p hp => by cases hp)
  · exact fetchData_inactive_clears _ 0
      (some { scenarioPosition with isActive := false }) (12 * 10 ^ 8)
      (fun p hp => by cases hp; rfl)

/-- C6: when the combined position/price fetch fails while the state holds
an active position, `fetchData` leaves the position, the stats snapshot and
the countdown exactly as they were, and stores the error message. -/
theorem fetchData_failed_preserves_active (s : MonitorState) (now : ℤ)
    (msg : String) (p : Position) (hpos : s.position = some p)
    (hact : p.isActive = true) :
    (fetchData s now (FetchOutcome.failed msg)).position = s.position ∧
    (fetchData s now (FetchOutcome.failed msg)).stats = s.stats ∧
    (fetchData s now (FetchOutcome.failed msg)).timeRemaining =
      s.timeRemaining ∧
    (fetchData s now (FetchOutcome.failed msg)).error = some msg := by
  simp [fetchData, hpos, hact]

/-- C6 (witness): `fetchData_failed_preserves_active` for a failing fetch
from a state holding the active scenario position with its snapshot and a
live countdown. -/
theorem fetchData_failed_preserves_active_spot :
    (fetchData
      ⟨some scenarioPosition, some (calculateStats scenarioPosition 12 0), 12,
        false, none, false, 3600⟩
      0 (FetchOutcome.failed "ChainError")).position = some scenarioPosition ∧
    (fetchData
      ⟨some scenarioPosition, some (calculateStats scenarioPosition 12 0), 12,
        false, none, false, 3600⟩
      0 (FetchOutcome.failed "ChainError")).stats =
        some (calculateStats scenarioPosition 12 0) ∧
    (fetchData
      ⟨some scenarioPosition, some (calculateStats scenarioPosition 12 0), 12,
        false, none, false, 3600⟩
      0 (FetchOutcome.failed "ChainError")).timeRemaining = 3600 ∧
    (fetchData
      ⟨some scenarioPosition, some (calculateStats scenarioPosition 12 0), 12,
        false, none, false, 3600⟩
      0 (FetchOutcome.failed "ChainError")).error = some "ChainError" :=
  fetchData_failed_preserves_active
    ⟨some scenarioPosition, some (calculateStats scenarioPosition 12 0), 12,
      false, none, false, 3600⟩
    0 "ChainError" scenarioPosition rfl rfl

/-- C7 (counterexample): the claim says a fetch failure while no position
is present surfaces no error.  Starting from the empty (`Inactive`) state —
`position = null`, no prior error — a failed fetch stores the error: the
code's condition `position === null || (position && position.isActive)` is
true when `position` is null, so `setError` runs. -/
theorem fetchData_failed_absent_cex :
    (⟨none, none, 0, false, none, false, 0⟩ : MonitorState).position = none ∧
    (fetchData ⟨none, none, 0, false, none, false, 0⟩ 0
      (FetchOutcome.failed "ChainError")).error = some "ChainError" :=
  ⟨rfl, rfl⟩

/-- C7 (amended): a fetch failure is surfaced when no position is present
(the error is stored), and is suppressed only in the state that holds a
fetched position with `active = false` — there the error, position and
stats fields are all left unchanged. -/
theorem fetchData_failed_surfacing (s : MonitorState) (now : ℤ) (msg : String) :
    (s.position = none →
      (fetchData s now (FetchOutcome.failed msg)).error = some msg) ∧
    (∀ p, s.position = some p → p.isActive = false →
      (fetchData s now (FetchOutcome.failed msg)).error = s.error ∧
      (fetchData s now (FetchOutcome.failed msg)).position = s.position ∧
      (fetchData s now (FetchOutcome.failed msg)).stats = s.stats) := by
  constructor
  · intro h
    simp [fetchData, h]
  · intro p hp hact
    simp [fetchData, hp, hact]

/-- C7 (witness): both branches of `fetchData_failed_surfacing` at concrete
states: the empty state surfaces the failure, while a state holding the
inactive scenario position keeps its (empty) error field. -/
theorem fetchData_failed_surfacing_spot :
    (fetchData ⟨none, none, 0, false, none, false, 0⟩ 0
      (FetchOutcome.failed "OracleError")).error = some "OracleError" ∧
    (fetchData
      ⟨some { scenarioPosition with isActive := false }, none, 0, false, none,
        false, 0⟩
      0 (FetchOutcome.failed "OracleError")).error = none := by
  constructor
  · exact (fetchData_failed_surfacing
      ⟨none, none, 0, false, none, false, 0⟩ 0 "OracleError").1 rfl
  · exact ((fetchData_failed_surfacing
      ⟨some { scenarioPosition with isActive := false }, none, 0, false, none,
        false, 0⟩
      0 "OracleError").2 { scenarioPosition with isActive := false } rfl rfl).1

/-- C8 (counterexample): the claim says the hold amount equals the
caller-supplied override whenever one is present.  With override 0 present
(borrow 1000 USD at 50% LTV), JavaScript's `||` treats the 0 as falsy and
the route computes `ceil(1000 / 0.5) = 2000` instead of using the
override. -/
theorem preAuthAmount_zero_override_cex :
    preAuthAmount (some 0) 1000 50 = JsNum.fin 2000 ∧
    preAuthAmount (some 0) 1000 50 ≠ JsNum.fin 0 := by
  have h : preAuthAmount (some 0) 1000 50 = JsNum.fin 2000 := by
    norm_num [preAuthAmount, jsDiv, jsCeil]
  exact ⟨h, by rw [h]; simp⟩

/-- C8 (amended): for a nonzero LTV percentage, the hold amount is
`ceil(borrowAmountUSD / (ltvPercent / 100))` when the override is absent,
and equals the override whenever a nonzero (truthy) one is present; an
override of 0 is treated as absent and falls back to the computed value. -/
theorem preAuthAmount_spec (b l r : ℚ) (hl : l ≠ 0) :
    preAuthAmount none b l = JsNum.fin ((⌈b / (l / 100)⌉ : ℤ) : ℚ) ∧
    (r ≠ 0 → preAuthAmount (some r) b l = JsNum.fin r) ∧
    preAuthAmount (some 0) b l = JsNum.fin ((⌈b / (l / 100)⌉ : ℤ) : ℚ) := by
  have hd : l / 100 ≠ 0 := div_ne_zero hl (by norm_num)
  refine ⟨?_, ?_, ?_⟩
  · simp [preAuthAmount, jsDiv, jsCeil, hd]
  · intro hr
    simp [preAuthAmount, hr]
  · simp [preAuthAmount, jsDiv, jsCeil, hd]

/-- C8 (witness): `preAuthAmount_spec` at borrow 1000 USD, 50% LTV,
override 1500: the computed hold is `ceil(1000 / 0.5)` and a nonzero
override is returned as supplied. -/
theorem preAuthAmount_spec_spot :
    preAuthAmount none 1000 50 =
      JsNum.fin ((⌈(1000 : ℚ) / (50 / 100)⌉ : ℤ) : ℚ) ∧
    preAuthAmount (some 1500) 1000 50 = JsNum.fin 1500 :=
  ⟨(preAuthAmount_spec 1000 50 1500 (by norm_num)).1,
    (preAuthAmount_spec 1000 50 1500 (by norm_num)).2.1 (by norm_num)⟩

/-- C9: `handleClosePosition` after a successful chain close leaves the
state with no position and no stats (the monitor reads as `Inactive`);
after a failed close it leaves the position and stats untouched (still the
prior `Active` view) and stores the error message for the caller. -/
theorem handleClosePosition_outcomes (s : MonitorState) (msg : String) :
    ((handleClosePosition s CloseOutcome.ok).position = none ∧
      (handleClosePosition s CloseOutcome.ok).stats = none) ∧
    ((handleClosePosition s (CloseOutcome.failed msg)).position = s.position ∧
      (handleClosePosition s (CloseOutcome.failed msg)).stats = s.stats ∧
      (handleClosePosition s (CloseOutcome.failed msg)).error = some msg) :=
  ⟨⟨rfl, rfl⟩, rfl, rfl, rfl⟩

/-- C10: every loan record the loans POST handler accepts is returned (and
stored) with `status = "active"` and with `createdAt` set to the server
clock, whatever status and createdAt the caller supplied; in particular no
accepted record carries status `"closed"`, `"liquidated"` or `"failed"`. -/
theorem loansPOST_forces_active (d : LoanData) (now : String) (r : LoanData)
    (h : LoansApi.POST d now = Except.ok r) :
    r.status = "active" ∧ r.createdAt = now ∧ r.status ≠ "closed" ∧
    r.status ≠ "liquidated" ∧ r.status ≠ "failed" := by
  unfold LoansApi.POST at h
  split_ifs at h
  cases h
  refine ⟨rfl, rfl, ?_, ?_, ?_⟩ <;> simp

/-- C10 (witness): `loansPOST_forces_active` on a caller record that
arrives claiming `status = "liquidated"` and a caller-chosen `createdAt`:
the stored record is active with the server timestamp. -/
theorem loansPOST_forces_active_spot :
    ({ id := "loan_1", preAuthId := "pi_1", walletAddress := "0xabc"
       borrowAmount := 1000, asset := "ETH", status := "active"
       createdAt := "2026-10-11T00:00:00.000Z" } : LoanData).status
        = "active" ∧
    ({ id := "loan_1", preAuthId := "pi_1", walletAddress := "0xabc"
       borrowAmount := 1000, asset := "ETH", status := "active"
       createdAt := "2026-10-11T00:00:00.000Z" } : LoanData).createdAt
        = "2026-10-11T00:00:00.000Z" ∧
    ({ id := "loan_1", preAuthId := "pi_1", walletAddress := "0xabc"
       borrowAmount := 1000, asset := "ETH", status := "active"
       createdAt := "2026-10-11T00:00:00.000Z" } : LoanData).status
        ≠ "closed" ∧
    ({ id := "loan_1", preAuthId := "pi_1", walletAddress := "0xabc"
       borrowAmount := 1000, asset := "ETH", status := "active"
       createdAt := "2026-10-11T00:00:00.000Z" } : LoanData).status
        ≠ "liquidated" ∧
    ({ id := "loan_1", preAuthId := "pi_1", walletAddress := "0xabc"
       borrowAmount := 1000, asset := "ETH", status := "active"
       createdAt := "2026-10-11T00:00:00.000Z" } : LoanData).status
        ≠ "failed" :=
  loansPOST_forces_active
    { id := "loan_1", preAuthId := "pi_1", walletAddress := "0xabc"
      borrowAmount := 1000, asset := "ETH", status := "liquidated"
      createdAt := "caller-clock" }
    "2026-10-11T00:00:00.000Z" _ (by rfl)

/-- C4 (witness): the amended statement at the scenario position and
price −1. -/
theorem calculateStats_nonpositive_price_spot :
    (calculateStats scenarioPosition (-1) 0).healthFactor = JsNum.fin 0 ∧
    (calculateStats scenarioPosition (-1) 0).isAtRisk = true ∧
    (calculateStats scenarioPosition (-1) 0).currentLTV = 0 ∧
    (calculateStats scenarioPosition (-1) 0).totalExposureUSD =
      scenarioPosition.suppliedLINK / 10 ^ 18 * (-1) ∧
    (calculateStats scenarioPosition (-1) 0).totalExposureUSD ≤ 0 :=
  calculateStats_nonpositive_price scenarioPosition (-1) 0 (by norm_num)
    (by norm_num [scenarioPosition])

end CreditBridge
